import Mathlib

/-!
Shallow embedding of `bzt/modules/reporting.py` (taurus reporting module):
the `FinalStatus` console summary reporter and the `JUnitXMLReporter`
structured (JUnit XML) report generator, together with theorems checking
the natural-language specification against this embedding.

Python dictionaries are modelled as association lists, log output as lists
of structural log events, the produced XML tree as a domain-specific record
type, and fallible operations (division by zero, filesystem failures,
configuration errors) as `Except` / explicit outcome types.
-/

namespace Reporting

/-- One distinct error signature of a label (`KPISet.ERRORS` entry):
response code `rc`, message `msg`, occurrence count `cnt`, and the
per-endpoint breakdown `urls` (endpoint identifier to contributed count). -/
structure ErrorEntry where
  rc : String
  msg : String
  cnt : Nat
  urls : List (String × Nat)
  deriving Repr, DecidableEq

/-- Per-label statistics record (`KPISet`): counts, average timings,
percentile map (numeric-string key to response time) and error signatures. -/
structure KPISet where
  sample_count : Nat
  successes : Nat
  failures : Nat
  avg_resp_time : Rat
  avg_latency : Rat
  avg_conn_time : Rat
  percentiles : List (String × Rat)
  errors : List ErrorEntry
  deriving Repr, DecidableEq

/-- The cumulative view of a snapshot (`DataPoint.CUMULATIVE`): a mapping
from label (empty string = overall aggregate) to its `KPISet`. -/
def Cumulative : Type := List (String × KPISet)

instance : DecidableEq Cumulative := by
  unfold Cumulative
  infer_instance

/-- Python dict lookup `d[key]` on the association-list model. -/
def dictLookup (cumulative : Cumulative) (key : String) : Option KPISet :=
  match cumulative with
  | [] => none
  | (k, v) :: rest => if k = key then some v else dictLookup rest key

/-- Placeholder `KPISet` used with `Option.getD` at spots where the code
performs a raw `d[key]` lookup backed by the invariant that the key exists
(the cumulative view always contains the empty-string overall label). -/
def defaultKPISet : KPISet :=
  { sample_count := 0, successes := 0, failures := 0,
    avg_resp_time := 0, avg_latency := 0, avg_conn_time := 0,
    percentiles := [], errors := [] }

/-- Python string comparison `a <= b`: lexicographic on the code points of
the characters.  Defined on the character lists so that it is structurally
recursive (and hence evaluates inside the kernel). -/
def pyStrLeChars : List Char → List Char → Bool
  | [], _ => true
  | _ :: _, [] => false
  | a :: as, b :: bs =>
      if a.toNat < b.toNat then true
      else if b.toNat < a.toNat then false
      else pyStrLeChars as bs

/-- Python string order `a <= b` (code-point lexicographic). -/
def pyStrLe (a b : String) : Bool := pyStrLeChars a.data b.data

/-- Python strict string order `a < b` (code-point lexicographic). -/
def pyStrLtChars : List Char → List Char → Bool
  | [], [] => false
  | [], _ :: _ => true
  | _ :: _, [] => false
  | a :: as, b :: bs =>
      if a.toNat < b.toNat then true
      else if b.toNat < a.toNat then false
      else pyStrLtChars as bs

/-- Python strict string order `a < b` (code-point lexicographic). -/
def pyStrLt (a b : String) : Bool := pyStrLtChars a.data b.data

/-- Numeric value of a digit character, as Python reads decimal digits. -/
def digitVal (c : Char) : Nat := c.toNat - 48

/-- Decimal value of a digit run (integer part of a numeric string). -/
def decDigits (cs : List Char) : Nat :=
  cs.foldl (fun acc c => 10 * acc + digitVal c) 0

/-- Splits a character list at the first decimal point, returning the
integer-part digits and, when a point is present, the fractional digits. -/
def splitDot : List Char → List Char × Option (List Char)
  | [] => ([], none)
  | c :: cs =>
      if c = '.' then ([], some cs)
      else
        let r := splitDot cs
        (c :: r.1, r.2)

/-- Model of Python `float(key)` on the numeric-string percentile keys:
an optional decimal point separates integer and fractional digit runs.
(Non-numeric strings are out of scope: the spec restricts percentile keys
to numeric strings.) -/
def pyFloat (s : String) : Rat :=
  match splitDot s.data with
  | (ipart, none) => (decDigits ipart : Rat)
  | (ipart, some fpart) =>
      (decDigits ipart : Rat) + (decDigits fpart : Rat) / (10 : Rat) ^ fpart.length

/-- Structural model of one log line emitted by `FinalStatus`. -/
inductive FSLog where
  | duration
  | samplesCount (count : Nat) (errRate : Rat)
  | avgTimes (respTime latency connTime : Rat)
  | percentile (rank : Rat) (value : Rat)
  | failedLabel (failedCount : Nat) (label : String)
  deriving Repr, DecidableEq

/-- `FinalStatus` parameters with their code defaults. -/
structure FinalStatusParams where
  test_duration : Bool := true
  summary : Bool := true
  percentiles : Bool := true
  failed_labels : Bool := false
  deriving Repr, DecidableEq

/-- `FinalStatus.__report_samples_count`: computes
`err_rate = 100 * failures / float(sample_count)` and logs it.  Python
raises `ZeroDivisionError` when `sample_count` is zero (float division by
zero), modelled as `Except.error`. -/
def report_samples_count (summary_kpi_set : KPISet) : Except String FSLog :=
  if summary_kpi_set.sample_count = 0 then
    Except.error "ZeroDivisionError: float division by zero"
  else
    Except.ok (FSLog.samplesCount summary_kpi_set.sample_count
      (100 * (summary_kpi_set.failures : Rat) / (summary_kpi_set.sample_count : Rat)))

/-- The key order produced by `sorted(keys, key=float)`: a stable sort by
the numeric value of the key (Python's sort is stable; insertion sort is a
stable sort, so the two agree on every input). -/
def sortKeysByFloat (keys : List String) : List String :=
  List.insertionSort (fun a b => pyFloat a ≤ pyFloat b) keys

/-- `FinalStatus.__report_percentiles`: logs the average timings, then one
line per percentile key in `sorted(..., key=float)` order, each with the
numeric rank and the mapped value. -/
def report_percentiles (summary_kpi_set : KPISet) : List FSLog :=
  FSLog.avgTimes summary_kpi_set.avg_resp_time summary_kpi_set.avg_latency
      summary_kpi_set.avg_conn_time ::
    (sortKeysByFloat (summary_kpi_set.percentiles.map Prod.fst)).map
      (fun key => FSLog.percentile (pyFloat key)
        (((summary_kpi_set.percentiles.filter (fun p => p.1 = key)).map Prod.snd).headD 0))

/-- The numeric percentile ranks appearing in a log, in logged order. -/
def loggedPercentileRanks (logs : List FSLog) : List Rat :=
  logs.filterMap (fun l =>
    match l with
    | FSLog.percentile rank _ => some rank
    | _ => none)

/-- `FinalStatus.__report_failed_labels`: one line per non-empty label with
a nonzero failure count, labels in sorted order. -/
def report_failed_labels (cumulative : Cumulative) : List FSLog :=
  (List.insertionSort (fun a b => pyStrLe a b = true) (cumulative.map Prod.fst)).foldr
    (fun sample_label acc =>
      if sample_label = "" then acc
      else
        let failed := ((dictLookup cumulative sample_label).getD defaultKPISet).failures
        if failed ≠ 0 then FSLog.failedLabel failed sample_label :: acc else acc)
    []

/-- `FinalStatus.post_process`: logs the duration section, then, when a
snapshot was received, the summary / percentiles / failed-labels sections
per the parameter flags.  A `ZeroDivisionError` escaping
`__report_samples_count` aborts the remaining sections (`Except.error`). -/
def final_status_post_process (params : FinalStatusParams)
    (last_sec : Option Cumulative) : Except String (List FSLog) := do
  let durationLogs := if params.test_duration then [FSLog.duration] else []
  match last_sec with
  | none => Except.ok durationLogs
  | some cumulative =>
      let summary_kpi := (dictLookup cumulative "").getD defaultKPISet
      let summaryLogs ←
        if params.summary then
          (report_samples_count summary_kpi).map (fun l => [l])
        else Except.ok []
      let percentileLogs := if params.percentiles then report_percentiles summary_kpi else []
      let failedLogs := if params.failed_labels then report_failed_labels cumulative else []
      Except.ok (durationLogs ++ summaryLogs ++ percentileLogs ++ failedLogs)

/-! ### JUnitXMLReporter -/

/-- One failure/error marker element inside a testcase element:
`etree.Element("error", message=..., type=...)` with optional body text. -/
structure ErrorMarker where
  message : String
  type : String
  text : String
  deriving Repr, DecidableEq

/-- Content of the summary testcase's `system-out` body, kept structural:
`"Success: {success}, Sample count: {throughput}, Failures: {fail}, Errors: {errors}"`,
one line per discovered report URL, then the rendered error-signature
breakdown (the `ErrorEntry` records actually written by `get_urls_errors`,
each with its per-endpoint sub-lines). -/
structure SummaryBody where
  success : Nat
  sampleCount : Nat
  failures : Nat
  errorsCount : Nat
  reportUrls : List String
  urlErrors : List ErrorEntry
  deriving Repr, DecidableEq

/-- One `<testcase>` element: classname and name attributes, whether a
`<skipped/>` child is attached, the optional `system-out` body, and the
attached error markers. -/
structure TestCaseEntry where
  classname : String
  name : String
  skipped : Bool
  systemOut : Option SummaryBody
  errorMarkers : List ErrorMarker
  deriving Repr, DecidableEq

/-- The root `<testsuite>` element with its name/package attributes. -/
structure TestSuite where
  name : String
  package : String
  cases : List TestCaseEntry
  deriving Repr, DecidableEq

/-- `(report_url, test_name)` pair from `get_bza_report_info` (BlazeMeter
collaborator).  `test_name` uses the empty string for Python `None`
(both are falsy where the code tests truthiness). -/
def BzaInfo : Type := String × String

/-- `self.max_urls = self.settings.get("max-urls", 20)` from `__init__`:
the configured setting, defaulted to 20. -/
def junit_init_max_urls (settingsMaxUrls : Option Nat) : Nat :=
  settingsMaxUrls.getD 20

/-- The `max-urls` part of `JUnitXMLReporter.prepare`: clamp `self.max_urls`
to 50, emitting a warning when the configured value exceeded 50.  Returns
the new `self.max_urls` and whether the warning was logged.  Note that
`prepare` does not write the clamped value back into `self.settings`. -/
def junit_prepare (max_urls : Nat) : Nat × Bool :=
  if max_urls > 50 then (50, true) else (max_urls, false)

/-- The loop-break test of `get_urls_errors`:
`if count > self.settings.get("max-urls"): break`.  The comparison is
against the raw settings value (no default), not against the clamped
`self.max_urls`; with the setting absent, Python 2 evaluates
`int > None` as `False`, so the loop never breaks. -/
def urlsBreakCond (settingsMaxUrls : Option Nat) (count : Nat) : Bool :=
  match settingsMaxUrls with
  | some m => count > m
  | none => false

/-- Loop of `JUnitXMLReporter.get_urls_errors` over `enumerate(errors)`:
returns the error signatures actually written to the summary body, in
order, stopping at the first index where the break condition fires. -/
def get_urls_errors_from (settingsMaxUrls : Option Nat) (count : Nat) :
    List ErrorEntry → List ErrorEntry
  | [] => []
  | e :: rest =>
      if urlsBreakCond settingsMaxUrls count then []
      else e :: get_urls_errors_from settingsMaxUrls (count + 1) rest

/-- `JUnitXMLReporter.get_urls_errors` (content model: the list of included
signatures; each is rendered as its code/message/count line plus one
sub-line per endpoint). -/
def get_urls_errors (settingsMaxUrls : Option Nat) (summary_kpi_set : KPISet) :
    List ErrorEntry :=
  get_urls_errors_from settingsMaxUrls 0 summary_kpi_set.errors

/-- `JUnitXMLReporter.count_errors`: nested loop summing the per-endpoint
counts of every error signature of the overall label. -/
def count_errors (summary_kpi_set : KPISet) : Nat :=
  summary_kpi_set.errors.foldl
    (fun err_counter error =>
      error.urls.foldl (fun acc p => acc + p.2) err_counter)
    0

/-- `JUnitXMLReporter.make_summary_report`: the summary testcase, with
classname "bzt", name "summary_report", a `<skipped/>` child, and the
structured `system-out` body. -/
def make_summary_report (summary_kpiset : KPISet) (report_urls : List String)
    (settingsMaxUrls : Option Nat) : TestCaseEntry :=
  { classname := "bzt"
    name := "summary_report"
    skipped := true
    systemOut := some
      { success := summary_kpiset.successes
        sampleCount := summary_kpiset.sample_count
        failures := summary_kpiset.failures
        errorsCount := count_errors summary_kpiset
        reportUrls := report_urls
        urlErrors := get_urls_errors settingsMaxUrls summary_kpiset }
    errorMarkers := [] }

/-- Error markers of one label's testcase in sample-labels mode:
`message=str(er_dict["rc"])`, `type=str(er_dict["msg"])`, body text
`"total errors of this type:" + str(er_dict["cnt"])`. -/
def labelErrorMarkers (kpi : KPISet) : List ErrorMarker :=
  if kpi.errors ≠ [] then
    kpi.errors.map (fun er_dict =>
      { message := er_dict.rc
        type := er_dict.msg
        text := "total errors of this type:" ++ toString er_dict.cnt })
  else []

/-- `JUnitXMLReporter.process_sample_labels`: summary testcase first, then
one testcase per key of `sorted(_kpiset.keys())`, skipping the empty
label.  The class name is the first collaborator's test name, defaulting
to "bzt" when no collaborator info exists. -/
def process_sample_labels (cumulative : Cumulative) (bza_report_info : List BzaInfo)
    (settingsMaxUrls : Option Nat) : TestSuite :=
  let summary_kpiset := (dictLookup cumulative "").getD defaultKPISet
  let class_name := match bza_report_info with
    | [] => "bzt"
    | info :: _ => info.2
  let report_urls := bza_report_info.map Prod.fst
  let sorted_keys := List.insertionSort (fun a b => pyStrLe a b = true) (cumulative.map Prod.fst)
  { name := "sample_labels"
    package := "bzt"
    cases := make_summary_report summary_kpiset report_urls settingsMaxUrls ::
      (sorted_keys.filter (fun key => key ≠ "")).map (fun key =>
        { classname := class_name
          name := key
          skipped := false
          systemOut := none
          errorMarkers := labelErrorMarkers ((dictLookup cumulative key).getD defaultKPISet) }) }

/-- One pass/fail criterion's configuration fields, as strings (Python
truthiness of a string = non-emptiness; `None` is modelled as ""). -/
structure CriterionConfig where
  subject : String
  label : String
  condition : String
  threshold : String
  timeframe : String
  deriving Repr, DecidableEq

/-- One externally evaluated pass/fail criterion. -/
structure FailCriterion where
  config : CriterionConfig
  is_triggered : Bool
  fail : Bool
  deriving Repr, DecidableEq

/-- Display-name construction of `process_pass_fail`: the `%s`-template
selected by label truthiness, with the timeframe suffix appended when the
timeframe is truthy. -/
def criterionDisplayName (c : CriterionConfig) : String :=
  let base :=
    if c.label ≠ "" then c.subject ++ " of " ++ c.label ++ c.condition ++ c.threshold
    else c.subject ++ c.condition ++ c.threshold
  if c.timeframe ≠ "" then base ++ " for " ++ c.timeframe else base

/-- `JUnitXMLReporter.process_pass_fail`: criteria concatenated across the
engine's criteria evaluators in registration order; one testcase per
criterion; an error marker of type "pass/fail criteria triggered" with
empty message exactly when `is_triggered and fail`. -/
def process_pass_fail (reporterCriterias : List (List FailCriterion))
    (bza_report_info : List BzaInfo) : TestSuite :=
  let fail_criterias := reporterCriterias.flatten
  let test_name := match bza_report_info with
    | [] => ""
    | info :: _ => info.2
  let classname := if test_name ≠ "" then test_name else "bzt"
  { name := "bzt_pass_fail"
    package := "bzt"
    cases := fail_criterias.map (fun fc_obj =>
      { classname := classname
        name := criterionDisplayName fc_obj.config
        skipped := false
        systemOut := none
        errorMarkers :=
          if fc_obj.is_triggered && fc_obj.fail then
            [{ message := "", type := "pass/fail criteria triggered", text := "" }]
          else [] }) }

/-- Outcome of `JUnitXMLReporter.post_process`. -/
inductive JUnitOutcome where
  | wroteReport (suite : TestSuite)
  | noop
  | configError (msg : String)
  deriving Repr, DecidableEq

/-- `JUnitXMLReporter.post_process`: reads `data-source` (default
"sample-labels"); when a snapshot was received, renders and saves per the
selected mode or raises `ValueError` on an unsupported value; with no
snapshot ever received, does nothing at all. -/
def junit_post_process (dataSource : Option String) (last_second : Option Cumulative)
    (bza_report_info : List BzaInfo) (settingsMaxUrls : Option Nat)
    (reporterCriterias : List (List FailCriterion)) : JUnitOutcome :=
  let test_data_source := dataSource.getD "sample-labels"
  match last_second with
  | some cumulative =>
      if test_data_source = "sample-labels" then
        JUnitOutcome.wroteReport (process_sample_labels cumulative bza_report_info settingsMaxUrls)
      else if test_data_source = "pass-fail" then
        JUnitOutcome.wroteReport (process_pass_fail reporterCriterias bza_report_info)
      else
        JUnitOutcome.configError ("Unsupported data source: " ++ test_data_source)
  | none => JUnitOutcome.noop

/-! ### save_report (filesystem effects, modelled explicitly) -/

/-- Filesystem/log actions performed by `JUnitXMLReporter.save_report`,
in order. -/
inductive FsAction where
  | warnAlreadyExists
  | makedirs
  | logInfoWriting
  | writeFile
  | logErrorCannotCreate
  deriving Repr, DecidableEq

/-- The filesystem facts and operation outcomes `save_report` encounters:
whether the target file exists, whether `os.path.dirname` of it is
non-empty and whether that directory exists, and whether the `makedirs`
and open/write calls succeed when attempted. -/
structure FsState where
  fileExists : Bool
  dirnameNonempty : Bool
  dirExists : Bool
  makedirsOk : Bool
  writeOk : Bool
  deriving Repr, DecidableEq

/-- `JUnitXMLReporter.save_report`: warn-and-overwrite when the target
exists, else create the missing parent directory; serialize and write; on
any failure inside the `try` block, log at error severity and re-raise
(`Except.error`).  Returns the ordered action trace and the outcome. -/
def save_report (fs : FsState) : List FsAction × Except String Unit :=
  if fs.fileExists then
    if fs.writeOk then
      ([FsAction.warnAlreadyExists, FsAction.logInfoWriting, FsAction.writeFile], Except.ok ())
    else
      ([FsAction.warnAlreadyExists, FsAction.logInfoWriting, FsAction.logErrorCannotCreate],
        Except.error "Cannot create file")
  else
    if fs.dirnameNonempty && !fs.dirExists then
      if fs.makedirsOk then
        if fs.writeOk then
          ([FsAction.makedirs, FsAction.logInfoWriting, FsAction.writeFile], Except.ok ())
        else
          ([FsAction.makedirs, FsAction.logInfoWriting, FsAction.logErrorCannotCreate],
            Except.error "Cannot create file")
      else
        ([FsAction.logErrorCannotCreate], Except.error "Cannot create file")
    else
      if fs.writeOk then
        ([FsAction.logInfoWriting, FsAction.writeFile], Except.ok ())
      else
        ([FsAction.logInfoWriting, FsAction.logErrorCannotCreate],
          Except.error "Cannot create file")

/-! ### Concrete inputs used by witnesses and counterexamples -/

/-- Overall stats of an empty run: zero samples, zero failures. -/
def kpiEmptyRun : KPISet :=
  { sample_count := 0, successes := 0, failures := 0,
    avg_resp_time := 0, avg_latency := 0, avg_conn_time := 0,
    percentiles := [], errors := [] }

/-- Overall stats with two error signatures whose per-endpoint counts
(2 + 3 + 1 = 6) differ both from the signature count (2) and from the sum
of the signatures' own `cnt` fields (5 + 7 = 12). -/
def kpiTwoSignatures : KPISet :=
  { kpiEmptyRun with
    errors :=
      [ { rc := "500", msg := "Internal Server Error", cnt := 5,
          urls := [("/a", 2), ("/b", 3)] },
        { rc := "503", msg := "Service Unavailable", cnt := 7,
          urls := [("/c", 1)] } ] }

/-- Sixty distinct error signatures for the overall label. -/
def sixtySignatures : List ErrorEntry :=
  (List.range 60).map (fun i =>
    { rc := toString i, msg := "boom", cnt := 1, urls := [] })

/-- Overall stats carrying sixty error signatures. -/
def kpiSixty : KPISet := { kpiEmptyRun with errors := sixtySignatures }

/-- A label with one error signature (rc "404", message "Not Found"). -/
def kpiNotFound : KPISet :=
  { kpiEmptyRun with
    errors := [{ rc := "404", msg := "Not Found", cnt := 2, urls := [("/x", 2)] }] }

/-- Cumulative view: overall label plus one labelled entry with an error. -/
def cumOneLabel : Cumulative := [("", kpiEmptyRun), ("lbl", kpiNotFound)]

/-- Cumulative view with the overall label and two named labels delivered
out of lexicographic order. -/
def cumTwoLabels : Cumulative :=
  [("", kpiEmptyRun), ("b_label", kpiEmptyRun), ("a_label", kpiNotFound)]

/-- Overall stats whose percentile keys "10" and "9" sort differently as
numbers than as text. -/
def kpiPercentiles : KPISet :=
  { kpiEmptyRun with percentiles := [("10", 4), ("9", 3), ("50", 5)] }

/-- The spec's example criterion: empty label, triggered and failing. -/
def critAvgRt : FailCriterion :=
  { config := { subject := "avg-rt", label := "", condition := ">",
                threshold := "500ms", timeframe := "" },
    is_triggered := true, fail := true }

/-- The spec's example criterion: labelled, with a timeframe, not triggered. -/
def critCheckout : FailCriterion :=
  { config := { subject := "failures", label := "checkout", condition := ">",
                threshold := "1%", timeframe := "30s" },
    is_triggered := false, fail := false }

/-- Decidable equality for save_report outcomes. -/
instance : DecidableEq (Except String Unit) := fun a b =>
  match a, b with
  | Except.ok (), Except.ok () => isTrue rfl
  | Except.ok (), Except.error _ => isFalse (fun h => Except.noConfusion h)
  | Except.error _, Except.ok () => isFalse (fun h => Except.noConfusion h)
  | Except.error s, Except.error t =>
      if h : s = t then isTrue (by rw [h]) else isFalse (fun hh => h (by cases hh; rfl))

/-! ### Order theory for the code-point string comparison -/

theorem char_eq_of_toNat_eq {a b : Char} (h : a.toNat = b.toNat) : a = b :=
  Char.ext (UInt32.ext h)

theorem string_eq_of_data_eq : ∀ {a b : String}, a.data = b.data → a = b
  | String.mk _, String.mk _, h => by cases h; rfl

theorem pyStrLeChars_total : ∀ as bs : List Char,
    pyStrLeChars as bs = true ∨ pyStrLeChars bs as = true
  | [], _ => Or.inl rfl
  | _ :: _, [] => Or.inr rfl
  | a :: as, b :: bs => by
      rcases Nat.lt_trichotomy a.toNat b.toNat with h | h | h
      · left; simp [pyStrLeChars, h]
      · have h2 : ¬ a.toNat < b.toNat := by omega
        have h3 : ¬ b.toNat < a.toNat := by omega
        simpa [pyStrLeChars, h2, h3] using pyStrLeChars_total as bs
      · right; simp [pyStrLeChars, h]

theorem pyStrLeChars_trans : ∀ as bs cs : List Char,
    pyStrLeChars as bs = true → pyStrLeChars bs cs = true → pyStrLeChars as cs = true
  | [], _, _, _, _ => rfl
  | _ :: _, [], _, hab, _ => by simp [pyStrLeChars] at hab
  | _ :: _, _ :: _, [], _, hbc => by simp [pyStrLeChars] at hbc
  | a :: as, b :: bs, c :: cs, hab, hbc => by
      simp only [pyStrLeChars] at hab hbc ⊢
      rcases Nat.lt_trichotomy a.toNat b.toNat with h1 | h1 | h1
      · rcases Nat.lt_trichotomy b.toNat c.toNat with h2 | h2 | h2
        · simp [show a.toNat < c.toNat by omega]
        · simp [show a.toNat < c.toNat by omega]
        · simp [show ¬ b.toNat < c.toNat by omega, h2] at hbc
      · rcases Nat.lt_trichotomy b.toNat c.toNat with h2 | h2 | h2
        · simp [show a.toNat < c.toNat by omega]
        · simp only [show ¬ a.toNat < b.toNat by omega,
            show ¬ b.toNat < a.toNat by omega, if_false, ite_false,
            not_false_eq_true, if_neg] at hab
          simp only [show ¬ b.toNat < c.toNat by omega,
            show ¬ c.toNat < b.toNat by omega, if_false, ite_false,
            not_false_eq_true, if_neg] at hbc
          simp only [show ¬ a.toNat < c.toNat by omega,
            show ¬ c.toNat < a.toNat by omega, if_false, ite_false,
            not_false_eq_true, if_neg]
          exact pyStrLeChars_trans as bs cs hab hbc
        · simp [show ¬ b.toNat < c.toNat by omega, h2] at hbc
      · simp [show ¬ a.toNat < b.toNat by omega, h1] at hab

theorem pyStrLeChars_antisymm : ∀ as bs : List Char,
    pyStrLeChars as bs = true → pyStrLeChars bs as = true → as = bs
  | [], [], _, _ => rfl
  | [], _ :: _, _, hba => by simp [pyStrLeChars] at hba
  | _ :: _, [], hab, _ => by simp [pyStrLeChars] at hab
  | a :: as, b :: bs, hab, hba => by
      simp only [pyStrLeChars] at hab hba
      rcases Nat.lt_trichotomy a.toNat b.toNat with h1 | h1 | h1
      · simp [show ¬ b.toNat < a.toNat by omega, h1] at hba
      · simp only [show ¬ a.toNat < b.toNat by omega,
          show ¬ b.toNat < a.toNat by omega, if_false, ite_false,
          not_false_eq_true, if_neg] at hab hba
        rw [char_eq_of_toNat_eq h1, pyStrLeChars_antisymm as bs hab hba]
      · simp [show ¬ a.toNat < b.toNat by omega, h1] at hab

theorem pyStrLtChars_of_le_of_ne : ∀ as bs : List Char,
    pyStrLeChars as bs = true → as ≠ bs → pyStrLtChars as bs = true
  | [], [], _, hne => absurd rfl hne
  | [], _ :: _, _, _ => rfl
  | _ :: _, [], hle, _ => by simp [pyStrLeChars] at hle
  | a :: as, b :: bs, hle, hne => by
      simp only [pyStrLeChars] at hle
      simp only [pyStrLtChars]
      rcases Nat.lt_trichotomy a.toNat b.toNat with h1 | h1 | h1
      · simp [h1]
      · simp only [show ¬ a.toNat < b.toNat by omega,
          show ¬ b.toNat < a.toNat by omega, if_false, ite_false,
          not_false_eq_true, if_neg] at hle ⊢
        have hc : a = b := char_eq_of_toNat_eq h1
        exact pyStrLtChars_of_le_of_ne as bs hle
          (fun ht => hne (by rw [hc, ht]))
      · simp [show ¬ a.toNat < b.toNat by omega, h1] at hle

theorem pyStrLt_of_le_of_ne {a b : String} (hle : pyStrLe a b = true) (hne : a ≠ b) :
    pyStrLt a b = true :=
  pyStrLtChars_of_le_of_ne a.data b.data hle
    (fun hd => hne (string_eq_of_data_eq hd))

/-! ### General helper lemmas -/

theorem foldl_add_snd (l : List (String × Nat)) :
    ∀ acc : Nat, l.foldl (fun a p => a + p.2) acc = acc + (l.map Prod.snd).sum := by
  induction l with
  | nil => intro acc; simp
  | cons p l ih =>
      intro acc
      rw [List.foldl_cons, ih, List.map_cons, List.sum_cons]
      omega

theorem count_errors_foldl (l : List ErrorEntry) :
    ∀ acc : Nat,
      l.foldl (fun err_counter error => error.urls.foldl (fun a p => a + p.2) err_counter) acc =
        acc + (l.map (fun e => (e.urls.map Prod.snd).sum)).sum := by
  induction l with
  | nil => intro acc; simp
  | cons e l ih =>
      intro acc
      rw [List.foldl_cons, foldl_add_snd, ih, List.map_cons, List.sum_cons]
      omega

theorem filterMap_some_map {α β : Type} (f : α → β) (l : List α) :
    l.filterMap (fun a => some (f a)) = l.map f := by
  induction l with
  | nil => rfl
  | cons a l ih => simp [List.filterMap_cons, ih]

theorem labelErrorMarkers_eq_map (kpi : KPISet) :
    labelErrorMarkers kpi = kpi.errors.map (fun er_dict =>
      { message := er_dict.rc, type := er_dict.msg,
        text := "total errors of this type:" ++ toString er_dict.cnt }) := by
  rw [labelErrorMarkers]
  split
  · rfl
  · rename_i h
    rw [not_not.mp h]
    rfl

theorem criterionDisplayName_spec (c : CriterionConfig) :
    criterionDisplayName c =
      (if c.label = "" then c.subject ++ c.condition ++ c.threshold
       else c.subject ++ " of " ++ c.label ++ c.condition ++ c.threshold)
      ++ (if c.timeframe = "" then "" else " for " ++ c.timeframe) := by
  rw [criterionDisplayName]
  by_cases hl : c.label = "" <;> by_cases ht : c.timeframe = "" <;>
    simp [hl, ht, String.append_assoc, String.append_empty]

/-! ### Claim theorems -/

/-- C1: the claim (and the spec) require that for a snapshot whose overall
LabelStats has `sample_count = 0`, `FinalStatus.post_process` with summary
enabled does not raise and logs a 0% failure rate.  The code instead
computes `100 * failures / float(sample_count)` unguarded, which raises
`ZeroDivisionError` on the zero-sample snapshot: evaluating the embedded
code at the failing input yields the error, not a log line. -/
theorem c1_zero_sample_summary_raises :
    final_status_post_process
        { test_duration := true, summary := true, percentiles := true, failed_labels := false }
        (some [("", kpiEmptyRun)]) =
      Except.error "ZeroDivisionError: float division by zero" := rfl

/-- C2: the claim says that with `max-urls = 100` configured, `prepare`
clamps the effective cap to 50 with a warning, and the summary body's
per-signature breakdown holds at most 50 signatures.  `prepare` does set
`self.max_urls = 50` and warn, but `get_urls_errors` compares the loop
index against the raw `settings.get("max-urls")` value (still 100), so a
snapshot with 60 overall error signatures renders all 60 of them. -/
theorem c2_breakdown_ignores_clamped_cap :
    junit_init_max_urls (some 100) = 100 ∧
    junit_prepare (junit_init_max_urls (some 100)) = (50, true) ∧
    ((make_summary_report kpiSixty [] (some 100)).systemOut.map
        (fun b => b.urlErrors.length)) = some 60 ∧
    ¬ ((60 : Nat) ≤ 50) := by
  refine ⟨rfl, rfl, rfl, by decide⟩

/-- C3 counterexample: the claim says an unsupported `data-source` value
makes `post_process` raise "regardless of other state".  With no snapshot
ever delivered (`last_second = None`), `post_process` returns without
raising even for an unsupported value, because the `ValueError` branch
sits inside `if self.last_second:`. -/
theorem c3_counterexample_no_raise_without_snapshot :
    junit_post_process (some "unsupported-src") none [] none [] = JUnitOutcome.noop := rfl

/-- C3 (amended): for every `data-source` value outside
{"sample-labels", "pass-fail"}, `post_process` raises the fatal
configuration error at finalize time, provided at least one snapshot was
delivered; with no snapshot it does nothing instead. -/
theorem c3_amended_config_error_with_snapshot (dataSource : Option String)
    (cumulative : Cumulative) (bza : List BzaInfo) (settingsMaxUrls : Option Nat)
    (crits : List (List FailCriterion))
    (h1 : dataSource.getD "sample-labels" ≠ "sample-labels")
    (h2 : dataSource.getD "sample-labels" ≠ "pass-fail") :
    junit_post_process dataSource (some cumulative) bza settingsMaxUrls crits =
      JUnitOutcome.configError
        ("Unsupported data source: " ++ dataSource.getD "sample-labels") := by
  rw [junit_post_process]
  simp [h1, h2]

/-- C3 witness: the amended theorem applied to the concrete data source
"bogus" with a delivered snapshot. -/
theorem c3_amended_config_error_witness :
    junit_post_process (some "bogus") (some [("", kpiEmptyRun)]) [] none [] =
      JUnitOutcome.configError ("Unsupported data source: " ++ "bogus") :=
  c3_amended_config_error_with_snapshot (some "bogus") [("", kpiEmptyRun)] [] none []
    (by decide) (by decide)

/-- C8: the total error count placed in the summary entry's body equals
the sum, over all error signatures of the overall LabelStats, of the
per-endpoint occurrence counts in each signature's URL breakdown; on a
concrete two-signature input that total (6) is neither the signature
count (2) nor the sum of the signatures' own `cnt` fields (12). -/
theorem c8_summary_total_error_count :
    (∀ (summary_kpiset : KPISet) (report_urls : List String) (settingsMaxUrls : Option Nat),
        ((make_summary_report summary_kpiset report_urls settingsMaxUrls).systemOut.map
            SummaryBody.errorsCount) =
          some ((summary_kpiset.errors.map (fun e => (e.urls.map Prod.snd).sum)).sum)) ∧
    count_errors kpiTwoSignatures = 6 ∧
    kpiTwoSignatures.errors.length = 2 ∧
    (kpiTwoSignatures.errors.map ErrorEntry.cnt).sum = 12 ∧
    (6 : Nat) ≠ 2 ∧ (6 : Nat) ≠ 12 := by
  refine ⟨?_, rfl, rfl, rfl, by decide, by decide⟩
  intro k report_urls settingsMaxUrls
  show some (count_errors k) = _
  rw [count_errors, count_errors_foldl]
  simp

/-- C10: if no snapshot was ever delivered, `JUnitXMLReporter.post_process`
builds no document, writes no file and raises no error, whatever the
`data-source` value (including unsupported ones) and whatever criteria or
collaborator info exist. -/
theorem c10_no_snapshot_posts_nothing (dataSource : Option String) (bza : List BzaInfo)
    (settingsMaxUrls : Option Nat) (crits : List (List FailCriterion)) :
    junit_post_process dataSource none bza settingsMaxUrls crits = JUnitOutcome.noop := rfl

/-- C4 counterexample: the claim says each failure marker's type
classifier is the signature's response code and its message detail the
signature's message text.  On a label with the signature
(rc="404", msg="Not Found", cnt=2), the rendered marker carries
type="Not Found" and message="404" — the two attributes are swapped
relative to the claim (the code sets `message=str(rc)`, `type=str(msg)`). -/
theorem c4_counterexample_marker_fields_swapped :
    ((process_sample_labels cumOneLabel [] none).cases.map TestCaseEntry.errorMarkers) =
      [[], [{ message := "404", type := "Not Found",
              text := "total errors of this type:2" }]] ∧
    ("Not Found" : String) ≠ "404" ∧ ("404" : String) ≠ "Not Found" :=
  ⟨rfl, by decide, by decide⟩

/-- C4 (amended): in sample-labels mode, every per-label entry carries one
failure marker per error signature of that label, whose message attribute
is the signature's response code, whose type attribute is the signature's
message text, and whose body text is "total errors of this type:"
followed by the signature's count. -/
theorem c4_amended_marker_message_is_rc (cumulative : Cumulative) (bza : List BzaInfo)
    (settingsMaxUrls : Option Nat) (e : TestCaseEntry)
    (he : e ∈ (process_sample_labels cumulative bza settingsMaxUrls).cases.drop 1) :
    e.errorMarkers =
      ((dictLookup cumulative e.name).getD defaultKPISet).errors.map (fun er_dict =>
        { message := er_dict.rc, type := er_dict.msg,
          text := "total errors of this type:" ++ toString er_dict.cnt }) := by
  have he2 : e ∈ ((List.insertionSort (fun a b => pyStrLe a b = true)
      (cumulative.map Prod.fst)).filter (fun key => key ≠ "")).map (fun key =>
        ({ classname := (match bza with | [] => "bzt" | info :: _ => info.2)
           name := key
           skipped := false
           systemOut := none
           errorMarkers :=
             labelErrorMarkers ((dictLookup cumulative key).getD defaultKPISet) } :
          TestCaseEntry)) := he
  rcases List.mem_map.mp he2 with ⟨key, _, rfl⟩
  exact labelErrorMarkers_eq_map ((dictLookup cumulative key).getD defaultKPISet)

/-- C4 witness: the amended theorem applied to the label "lbl" of the
concrete cumulative view `cumOneLabel`. -/
theorem c4_amended_marker_witness :
    ({ classname := "bzt", name := "lbl", skipped := false, systemOut := none,
       errorMarkers := [{ message := "404", type := "Not Found",
                          text := "total errors of this type:2" }] } :
        TestCaseEntry).errorMarkers =
      ((dictLookup cumOneLabel "lbl").getD defaultKPISet).errors.map (fun er_dict =>
        { message := er_dict.rc, type := er_dict.msg,
          text := "total errors of this type:" ++ toString er_dict.cnt }) :=
  c4_amended_marker_message_is_rc cumOneLabel [] none _ (by decide)

/-- C6: in pass-fail mode every criterion is rendered (never skipped);
the display name is "<subject> of <label><condition><threshold>" for a
non-empty label and "<subject><condition><threshold>" for an empty label,
with " for <timeframe>" appended when a timeframe is present; and the
entry carries the "pass/fail criteria triggered" marker with empty
message exactly when both the triggered flag and the fail flag are set. -/
theorem c6_pass_fail_entry_rendering (reporterCriterias : List (List FailCriterion))
    (bza : List BzaInfo) (fc : FailCriterion) (i : Nat)
    (hfc : reporterCriterias.flatten[i]? = some fc) :
    (((process_pass_fail reporterCriterias bza).cases[i]?).map TestCaseEntry.name) =
      some ((if fc.config.label = ""
             then fc.config.subject ++ fc.config.condition ++ fc.config.threshold
             else fc.config.subject ++ " of " ++ fc.config.label ++
               fc.config.condition ++ fc.config.threshold)
        ++ (if fc.config.timeframe = "" then "" else " for " ++ fc.config.timeframe)) ∧
    ((((process_pass_fail reporterCriterias bza).cases[i]?).map TestCaseEntry.errorMarkers) =
        some [{ message := "", type := "pass/fail criteria triggered", text := "" }] ↔
      (fc.is_triggered = true ∧ fc.fail = true)) ∧
    (((process_pass_fail reporterCriterias bza).cases[i]?).map TestCaseEntry.skipped) =
      some false := by
  rcases fc with ⟨cfg, tr, fl⟩
  simp only [process_pass_fail, List.getElem?_map, hfc, Option.map_some']
  refine ⟨?_, ?_, trivial⟩
  · rw [criterionDisplayName_spec]
  · cases tr <;> cases fl <;> simp

/-- C6 witness: the theorem applied to the spec's example criterion
(subject "avg-rt", empty label, condition ">", threshold "500ms", no
timeframe, triggered and failing) sitting at index 0 of the single
criteria evaluator's list. -/
theorem c6_pass_fail_entry_witness :
    (((process_pass_fail [[critAvgRt, critCheckout]] []).cases[0]?).map
        TestCaseEntry.name) =
      some ((if critAvgRt.config.label = ""
             then critAvgRt.config.subject ++ critAvgRt.config.condition ++
               critAvgRt.config.threshold
             else critAvgRt.config.subject ++ " of " ++ critAvgRt.config.label ++
               critAvgRt.config.condition ++ critAvgRt.config.threshold)
        ++ (if critAvgRt.config.timeframe = "" then ""
            else " for " ++ critAvgRt.config.timeframe)) ∧
    ((((process_pass_fail [[critAvgRt, critCheckout]] []).cases[0]?).map
          TestCaseEntry.errorMarkers) =
        some [{ message := "", type := "pass/fail criteria triggered", text := "" }] ↔
      (critAvgRt.is_triggered = true ∧ critAvgRt.fail = true)) ∧
    (((process_pass_fail [[critAvgRt, critCheckout]] []).cases[0]?).map
        TestCaseEntry.skipped) = some false :=
  c6_pass_fail_entry_rendering [[critAvgRt, critCheckout]] [] critAvgRt 0 (by decide)

/-- C9: when persisting the report, an existing target file yields a logged
warning and is overwritten rather than making the save fail; when the
target is missing and its (non-empty) parent directory does not exist, the
directory is created before the write; and every failure during path
creation or write is logged at error severity and then re-raised — the
save raises exactly when a cannot-create error was logged, and that log
line is the last action before the re-raise. -/
theorem c9_save_report_behaviour (fs : FsState) :
    (fs.fileExists = true →
      FsAction.warnAlreadyExists ∈ (save_report fs).1 ∧
      (fs.writeOk = true →
        FsAction.writeFile ∈ (save_report fs).1 ∧ (save_report fs).2 = Except.ok ())) ∧
    (fs.fileExists = false → fs.dirnameNonempty = true → fs.dirExists = false →
      fs.makedirsOk = true →
      (save_report fs).1.head? = some FsAction.makedirs) ∧
    ((save_report fs).2 = Except.error "Cannot create file" ↔
      FsAction.logErrorCannotCreate ∈ (save_report fs).1) ∧
    ((save_report fs).2 = Except.error "Cannot create file" →
      (save_report fs).1.getLast? = some FsAction.logErrorCannotCreate) := by
  rcases fs with ⟨a, b, c, d, e⟩
  cases a <;> cases b <;> cases c <;> cases d <;> cases e <;> decide

/-- C9 witness: the theorem applied to two concrete filesystem states — an
existing target file with a succeeding write (warn and overwrite), and a
missing target whose parent directory is missing (directory created
first); plus a failing write whose error is logged last and re-raised. -/
theorem c9_save_report_witness :
    (FsAction.warnAlreadyExists ∈
        (save_report ⟨true, false, true, true, true⟩).1 ∧
      FsAction.writeFile ∈ (save_report ⟨true, false, true, true, true⟩).1 ∧
      (save_report ⟨true, false, true, true, true⟩).2 = Except.ok ()) ∧
    (save_report ⟨false, true, false, true, true⟩).1.head? = some FsAction.makedirs ∧
    (save_report ⟨false, true, false, true, false⟩).1.getLast? =
      some FsAction.logErrorCannotCreate := by
  have h1 := c9_save_report_behaviour ⟨true, false, true, true, true⟩
  have h2 := c9_save_report_behaviour ⟨false, true, false, true, true⟩
  have h3 := c9_save_report_behaviour ⟨false, true, false, true, false⟩
  exact ⟨⟨(h1.1 rfl).1, ((h1.1 rfl).2 rfl).1, ((h1.1 rfl).2 rfl).2⟩,
    h2.2.1 rfl rfl rfl rfl,
    h3.2.2.2 (by decide)⟩

/-- C5: for every percentile mapping with numeric-string keys (whose
numeric values are pairwise distinct, as percentile ranks are), the
Summary Reporter logs the percentile lines in strictly ascending order of
the numeric value of the key, regardless of key string length. -/
theorem c5_percentiles_numeric_ascending (summary_kpi_set : KPISet)
    (hinj : ((summary_kpi_set.percentiles.map Prod.fst).map pyFloat).Nodup) :
    (loggedPercentileRanks (report_percentiles summary_kpi_set)).Pairwise
      (fun a b => a < b) := by
  haveI : IsTotal String (fun a b => pyFloat a ≤ pyFloat b) :=
    ⟨fun a b => le_total (pyFloat a) (pyFloat b)⟩
  haveI : IsTrans String (fun a b => pyFloat a ≤ pyFloat b) :=
    ⟨fun _ _ _ hab hbc => le_trans hab hbc⟩
  have hlog : loggedPercentileRanks (report_percentiles summary_kpi_set) =
      (sortKeysByFloat (summary_kpi_set.percentiles.map Prod.fst)).map pyFloat := by
    simp only [loggedPercentileRanks, report_percentiles, List.filterMap_cons,
      List.filterMap_map]
    exact filterMap_some_map pyFloat _
  rw [hlog, List.pairwise_map]
  have hsorted : (sortKeysByFloat (summary_kpi_set.percentiles.map Prod.fst)).Pairwise
      (fun a b => pyFloat a ≤ pyFloat b) :=
    List.sorted_insertionSort _ _
  have hperm : List.Perm (sortKeysByFloat (summary_kpi_set.percentiles.map Prod.fst))
      (summary_kpi_set.percentiles.map Prod.fst) :=
    List.perm_insertionSort _ _
  have hnodup : ((sortKeysByFloat (summary_kpi_set.percentiles.map Prod.fst)).map
      pyFloat).Nodup :=
    hinj.perm (hperm.map pyFloat).symm
  have hne : (sortKeysByFloat (summary_kpi_set.percentiles.map Prod.fst)).Pairwise
      (fun a b => pyFloat a ≠ pyFloat b) :=
    List.pairwise_map.mp hnodup
  exact (hsorted.and hne).imp (fun h => lt_of_le_of_ne h.1 h.2)

/-- C5 witness: the theorem applied to percentile keys "10", "9", "50",
whose numeric sort order (9, 10, 50) differs from the lexicographic one. -/
theorem c5_percentiles_witness :
    (loggedPercentileRanks (report_percentiles kpiPercentiles)).Pairwise
      (fun a b => a < b) :=
  c5_percentiles_numeric_ascending kpiPercentiles (by
    show List.Nodup [pyFloat "10", pyFloat "9", pyFloat "50"]
    rw [show pyFloat "10" = ((10 : Nat) : Rat) from rfl,
        show pyFloat "9" = ((9 : Nat) : Rat) from rfl,
        show pyFloat "50" = ((50 : Nat) : Rat) from rfl]
    norm_num)

/-- C7: in sample-labels mode the rendered document holds exactly one
summary entry, placed first and marked skipped, followed by exactly one
entry per distinct non-empty label of the cumulative view (the entry
names are a permutation of those labels), in strictly ascending
code-point-lexicographic label order. -/
theorem c7_sample_labels_document_structure (cumulative : Cumulative)
    (bza : List BzaInfo) (settingsMaxUrls : Option Nat)
    (hnd : (cumulative.map Prod.fst).Nodup) :
    (process_sample_labels cumulative bza settingsMaxUrls).cases.head? =
      some (make_summary_report ((dictLookup cumulative "").getD defaultKPISet)
        (bza.map Prod.fst) settingsMaxUrls) ∧
    ((process_sample_labels cumulative bza settingsMaxUrls).cases.head?.map
        TestCaseEntry.skipped) = some true ∧
    List.Perm
      (((process_sample_labels cumulative bza settingsMaxUrls).cases.drop 1).map
        TestCaseEntry.name)
      ((cumulative.map Prod.fst).filter (fun key => key ≠ "")) ∧
    (((process_sample_labels cumulative bza settingsMaxUrls).cases.drop 1).map
        TestCaseEntry.name).Pairwise (fun a b => pyStrLt a b = true) := by
  haveI : IsTotal String (fun a b => pyStrLe a b = true) :=
    ⟨fun a b => pyStrLeChars_total a.data b.data⟩
  haveI : IsTrans String (fun a b => pyStrLe a b = true) :=
    ⟨fun a b c => pyStrLeChars_trans a.data b.data c.data⟩
  have hnames : ((process_sample_labels cumulative bza settingsMaxUrls).cases.drop 1).map
      TestCaseEntry.name =
      (List.insertionSort (fun a b => pyStrLe a b = true)
        (cumulative.map Prod.fst)).filter (fun key => key ≠ "") := by
    show (((List.insertionSort (fun a b => pyStrLe a b = true)
        (cumulative.map Prod.fst)).filter (fun key => key ≠ "")).map _).map
          TestCaseEntry.name = _
    rw [List.map_map]
    simp [Function.comp_def]
  have hperm : List.Perm
      (List.insertionSort (fun a b => pyStrLe a b = true) (cumulative.map Prod.fst))
      (cumulative.map Prod.fst) :=
    List.perm_insertionSort _ _
  refine ⟨rfl, rfl, ?_, ?_⟩
  · rw [hnames]
    exact hperm.filter _
  · rw [hnames]
    have hsorted : (List.insertionSort (fun a b => pyStrLe a b = true)
        (cumulative.map Prod.fst)).Pairwise (fun a b => pyStrLe a b = true) :=
      List.sorted_insertionSort _ _
    have hnd2 : (List.insertionSort (fun a b => pyStrLe a b = true)
        (cumulative.map Prod.fst)).Nodup :=
      hnd.perm hperm.symm
    exact ((hsorted.filter _).and (hnd2.filter _)).imp
      (fun h => pyStrLt_of_le_of_ne h.1 h.2)

/-- C7 witness: the theorem applied to a concrete cumulative view with the
overall label and the labels "b_label" and "a_label" delivered out of
order. -/
theorem c7_sample_labels_witness :
    (process_sample_labels cumTwoLabels [] none).cases.head? =
      some (make_summary_report kpiEmptyRun [] none) ∧
    ((process_sample_labels cumTwoLabels [] none).cases.head?.map
        TestCaseEntry.skipped) = some true ∧
    List.Perm
      (((process_sample_labels cumTwoLabels [] none).cases.drop 1).map
        TestCaseEntry.name)
      ((cumTwoLabels.map Prod.fst).filter (fun key => key ≠ "")) ∧
    (((process_sample_labels cumTwoLabels [] none).cases.drop 1).map
        TestCaseEntry.name).Pairwise (fun a b => pyStrLt a b = true) :=
  c7_sample_labels_document_structure cumTwoLabels [] none (by decide)

end Reporting
